import Mathlib

/-!
Shallow embedding of `src/storeapi/base/impl/WinMockContext.cpp`
(namespace `StoreApi::impl`), the mock Microsoft-Store client used by the
test builds of ubuntu-pro-for-wsl.

Modelling conventions:
* WinRT `JsonObject` / `IJsonValue` values are modelled by the inductive
  `JsonValue`; accessors such as `GetNamedString` throw WinRT exceptions on a
  missing or mistyped field, which we model as `Option` returning `none`.
* `std::chrono::system_clock::time_point` is modelled as `Int`: the number of
  100-nanosecond ticks since the Unix epoch (the value-initialized
  `time_point{}` is `0`, the epoch).
* `ss >> std::chrono::parse(fmt, tp)` is modelled by `chronoParseTimePoint`:
  the format string is compiled to directives and interpreted over the input
  characters; on failure the target is left unchanged (the epoch).
* `std::unordered_multimap` keeps all inserted key/value pairs, but its
  iteration order is unspecified by the C++ standard; the only guarantees
  ([unord.req]) are that iteration visits a permutation of the stored pairs
  and that pairs with equivalent keys are adjacent.  Serialization is
  therefore stated relative to any iteration order satisfying
  `validIterOrder`.
* `GetEnvironmentVariableW` into a 20-wide-char buffer is modelled by
  `getEnvironmentVariableW`: it returns `0` when the variable is unset or its
  value is empty; when the value (plus terminating null) does not fit the
  buffer it returns the required size and the buffer contents are undefined,
  which we model by an arbitrary `junk` string.
-/

namespace StoreApi

/-- Model of `winrt::Windows::Data::Json` values. -/
inductive JsonValue where
  | null
  | boolean (b : Bool)
  | num (n : Int)
  | str (s : String)
  | arr (elems : List JsonValue)
  | obj (fields : List (String × JsonValue))

/-- Field lookup in a JSON object (first binding wins). -/
def lookupField : List (String × JsonValue) → String → Option JsonValue
  | [], _ => none
  | (k, v) :: rest, key => if k = key then some v else lookupField rest key

/-- `JsonObject::GetNamedString(name)`: throws (here: `none`) when the
receiver is not an object, the field is absent, or it is not a string. -/
def getNamedString : JsonValue → String → Option String
  | .obj fields, key =>
    match lookupField fields key with
    | some (.str s) => some s
    | _ => none
  | _, _ => none

/-- `JsonObject::GetNamedBoolean(name)`. -/
def getNamedBoolean : JsonValue → String → Option Bool
  | .obj fields, key =>
    match lookupField fields key with
    | some (.boolean b) => some b
    | _ => none
  | _, _ => none

/-- `JsonObject::GetNamedArray(name)`. -/
def getNamedArray : JsonValue → String → Option (List JsonValue)
  | .obj fields, key =>
    match lookupField fields key with
    | some (.arr xs) => some xs
    | _ => none
  | _, _ => none

/-- `IJsonValue::GetObject()`: throws unless the value is a JSON object. -/
def getObject : JsonValue → Option JsonValue
  | .obj fields => some (.obj fields)
  | _ => none

/-! ### `std::chrono::parse` model -/

/-- The chrono format directives reachable from the source's format string:
`%F` (= `%Y-%m-%d`), `%T` (= `%H:%M:%S`), and literal characters. -/
inductive FmtDir where
  | pF
  | pT
  | lit (c : Char)
deriving Repr, DecidableEq

/-- Compile a chrono format string into directives. -/
def compileFmt : List Char → Option (List FmtDir)
  | [] => some []
  | '%' :: 'F' :: rest => (compileFmt rest).map (FmtDir.pF :: ·)
  | '%' :: 'T' :: rest => (compileFmt rest).map (FmtDir.pT :: ·)
  | '%' :: _ :: _ => none
  | '%' :: [] => none
  | c :: rest => (compileFmt rest).map (FmtDir.lit c :: ·)

def digitVal (c : Char) : Nat := c.toNat - '0'.toNat

/-- Take up to `n` leading decimal digits. -/
def takeDigits : Nat → List Char → List Char × List Char
  | 0, cs => ([], cs)
  | _ + 1, [] => ([], [])
  | n + 1, c :: cs =>
    if c.isDigit then
      let (ds, rest) := takeDigits n cs
      (c :: ds, rest)
    else ([], c :: cs)

def digitsToNat (ds : List Char) : Nat :=
  ds.foldl (fun acc c => acc * 10 + digitVal c) 0

/-- Read a decimal number of at most `w` digits (at least one digit). -/
def readNumWidth (w : Nat) (cs : List Char) : Option (Nat × List Char) :=
  match takeDigits w cs with
  | ([], _) => none
  | (ds, rest) => some (digitsToNat ds, rest)

def expectChar (c : Char) : List Char → Option (List Char)
  | [] => none
  | x :: xs => if x = c then some xs else none

/-- Calendar/time fields accumulated while parsing (chrono reports a parse
error when a field is parsed twice with conflicting values). -/
structure ParseFields where
  year : Option Nat := none
  month : Option Nat := none
  day : Option Nat := none
  hour : Option Nat := none
  minute : Option Nat := none
  second : Option Nat := none
  subticks : Option Nat := none
deriving Repr, DecidableEq

/-- Record a field value, failing on a conflicting duplicate. -/
def setF (cur : Option Nat) (v : Nat) : Option (Option Nat) :=
  match cur with
  | none => some (some v)
  | some w => if w = v then some (some v) else none

/-- Optional fractional seconds (radix point plus digits), in 100 ns ticks. -/
def parseSecFrac (cs : List Char) : Nat × List Char :=
  match cs with
  | '.' :: c :: rest =>
    if c.isDigit then
      let (ds, rest') := takeDigits 7 (c :: rest)
      (digitsToNat ds * 10 ^ (7 - ds.length), rest')
    else (0, '.' :: c :: rest)
  | _ => (0, cs)

/-- `%F`: four-digit year, `-`, two-digit month, `-`, two-digit day. -/
def parseDirF (f : ParseFields) (cs : List Char) :
    Option (ParseFields × List Char) := do
  let (y, cs) ← readNumWidth 4 cs
  let cs ← expectChar '-' cs
  let (mo, cs) ← readNumWidth 2 cs
  let cs ← expectChar '-' cs
  let (d, cs) ← readNumWidth 2 cs
  let yf ← setF f.year y
  let mf ← setF f.month mo
  let df ← setF f.day d
  pure ({ f with year := yf, month := mf, day := df }, cs)

/-- `%T`: two-digit hour, `:`, two-digit minute, `:`, seconds with optional
fraction. -/
def parseDirT (f : ParseFields) (cs : List Char) :
    Option (ParseFields × List Char) := do
  let (h, cs) ← readNumWidth 2 cs
  let cs ← expectChar ':' cs
  let (mi, cs) ← readNumWidth 2 cs
  let cs ← expectChar ':' cs
  let (s, cs) ← readNumWidth 2 cs
  let (fr, cs) := parseSecFrac cs
  let hf ← setF f.hour h
  let mif ← setF f.minute mi
  let sf ← setF f.second s
  let frf ← setF f.subticks fr
  pure ({ f with hour := hf, minute := mif, second := sf, subticks := frf }, cs)

/-- Interpret compiled format directives over the input stream. -/
def runDirs : List FmtDir → ParseFields → List Char →
    Option (ParseFields × List Char)
  | [], f, cs => some (f, cs)
  | .pF :: ds, f, cs => do
    let (f', cs') ← parseDirF f cs
    runDirs ds f' cs'
  | .pT :: ds, f, cs => do
    let (f', cs') ← parseDirT f cs
    runDirs ds f' cs'
  | .lit c :: ds, f, cs => do
    let cs' ← expectChar c cs
    runDirs ds f cs'

def isLeapYear (y : Nat) : Bool :=
  (y % 4 = 0 && y % 100 ≠ 0) || y % 400 = 0

def daysInMonth (y m : Nat) : Nat :=
  if m = 2 then (if isLeapYear y then 29 else 28)
  else if m = 4 || m = 6 || m = 9 || m = 11 then 30
  else 31

/-- Days from the Unix epoch to civil date y-m-d (Hinnant's algorithm, as in
the C++ standard library's calendar conversions). -/
def daysFromCivil (y : Int) (m d : Nat) : Int :=
  let yAdj : Int := if m ≤ 2 then y - 1 else y
  let era : Int := (if 0 ≤ yAdj then yAdj else yAdj - 399) / 400
  let yoe : Int := yAdj - era * 400
  let mp : Nat := if m > 2 then m - 3 else m + 9
  let doy : Int := (153 * (mp : Int) + 2) / 5 + (d : Int) - 1
  let doe : Int := yoe * 365 + yoe / 4 - yoe / 100 + doy
  era * 146097 + doe - 719468

/-- Assemble a `system_clock::time_point` (100 ns ticks since the epoch) from
parsed fields, failing when fields are missing or out of range. -/
def fieldsToTicks (f : ParseFields) : Option Int := do
  let y ← f.year
  let mo ← f.month
  let d ← f.day
  let h ← f.hour
  let mi ← f.minute
  let s ← f.second
  let fr := f.subticks.getD 0
  if 1 ≤ mo ∧ mo ≤ 12 ∧ 1 ≤ d ∧ d ≤ daysInMonth y mo ∧
      h ≤ 23 ∧ mi ≤ 59 ∧ s ≤ 59 then
    some ((daysFromCivil (y : Int) mo d * 86400 +
      ((h : Int) * 3600 + (mi : Int) * 60 + (s : Int))) * 10000000 + (fr : Int))
  else
    none

/-- `ss >> std::chrono::parse(fmt, tp)` for a `system_clock::time_point`:
`some ticks` when extraction succeeds (trailing input is allowed to remain in
the stream), `none` when it fails (the stream's failbit is set and `tp` keeps
its previous value). -/
def chronoParseTimePoint (fmt : String) (input : String) : Option Int :=
  match compileFmt fmt.toList with
  | none => none
  | some dirs =>
    match runDirs dirs {} input.toList with
    | none => none
    | some (f, _) => fieldsToTicks f

/-- The UTC instant y-m-d h:mi:s, in 100 ns ticks since the Unix epoch. -/
def utcTicks (y : Int) (mo d h mi s : Nat) : Int :=
  (daysFromCivil y mo d * 86400 +
    ((h : Int) * 3600 + (mi : Int) * 60 + (s : Int))) * 10000000

/-! ### Product decoding (`fromJson`) -/

/-- `WinMockContext::Product`. -/
structure Product where
  storeID : String
  title : String
  description : String
  productKind : String
  expiration : Int
  isInUserCollection : Bool
deriving Repr, DecidableEq

/-- The exact chrono format string appearing in the source. -/
def expirationFormat : String := "%FT%T%Tz"

/-- `fromJson` (WinMockContext.cpp:150-162): builds a Product from a
JsonObject.  The time-point starts value-initialized (the epoch) and is left
unchanged when `std::chrono::parse` fails; every `GetNamedString` /
`GetNamedBoolean` throws (here: `none`) on a missing or mistyped field. -/
def fromJson (obj : JsonValue) : Option Product := do
  let expStr ← getNamedString obj "ExpirationDate"
  let tp : Int := (chronoParseTimePoint expirationFormat expStr).getD 0
  let storeID ← getNamedString obj "StoreID"
  let title ← getNamedString obj "Title"
  let description ← getNamedString obj "Description"
  let productKind ← getNamedString obj "ProductKind"
  let inColl ← getNamedBoolean obj "IsInUserCollection"
  pure { storeID := storeID, title := title, description := description,
         productKind := productKind, expiration := tp,
         isInUserCollection := inColl }

/-! ### Endpoint resolution -/

/-- Model of `GetEnvironmentVariableW(name, buffer, bufSize)`.  `env` is the
variable's state (`none` = unset); `junk` stands for the undefined contents
the buffer holds when the call does not write it.  Returns the Win32 return
value paired with the buffer contents afterwards: `0` when the variable is
unset (or its value is empty, which also stores zero characters); the number
of characters stored when the value plus terminating null fits; the required
size (with the buffer contents undefined) when it does not fit. -/
def getEnvironmentVariableW (env : Option String) (bufSize : Nat)
    (junk : String) : Nat × String :=
  match env with
  | none => (0, junk)
  | some v =>
    if v.length + 1 ≤ bufSize then (v.length, v)
    else (v.length + 1, junk)

/-- `readStoreMockEndpoint` (WinMockContext.cpp:107-115): reads
`UP4W_MS_STORE_MOCK_ENDPOINT` into a 20-wide-char buffer and returns
`"127.0.0.1:9"` only when the call returned `0`. -/
def readStoreMockEndpoint (env : Option String) (junk : String) : String :=
  let endpointSize := 20
  let r := getEnvironmentVariableW env endpointSize junk
  if r.1 = 0 then "127.0.0.1:9" else r.2

/-- The value computed for `buildUri`'s static `endpoint` variable
(WinMockContext.cpp:123): `L"http://" + readStoreMockEndpoint()`. -/
def resolveEndpointValue (env : Option String) (junk : String) : String :=
  "http://" ++ readStoreMockEndpoint env junk

/-- C++ `static` local initialization of `endpoint` in `buildUri`: the cache
(`none` before the first call) is filled from the environment on first use
and returned unchanged afterwards.  `env`/`junk` are the environment state at
the time of this particular call. -/
def buildUriEndpointStep (env : Option String) (junk : String) :
    Option String → String × Option String
  | some e => (e, some e)
  | none =>
    let e := resolveEndpointValue env junk
    (e, some e)

/-! ### Query serialization (`HttpFormUrlEncodedContent` over the multimap) -/

def hexDigit (n : Nat) : Char :=
  if n < 10 then Char.ofNat ('0'.toNat + n)
  else Char.ofNat ('A'.toNat + n - 10)

/-- UTF-8 bytes of a Unicode scalar value. -/
def utf8Bytes (n : Nat) : List Nat :=
  if n < 0x80 then [n]
  else if n < 0x800 then [0xC0 + n / 64, 0x80 + n % 64]
  else if n < 0x10000 then
    [0xE0 + n / 4096, 0x80 + n / 64 % 64, 0x80 + n % 64]
  else
    [0xF0 + n / 262144, 0x80 + n / 4096 % 64, 0x80 + n / 64 % 64,
     0x80 + n % 64]

/-- Characters kept verbatim by application/x-www-form-urlencoded
serialization. -/
def isFormSafe (c : Char) : Bool :=
  c.isAlphanum || c = '-' || c = '.' || c = '_' || c = '*'

def formEncodeChar (c : Char) : String :=
  if isFormSafe c then String.singleton c
  else if c = ' ' then "+"
  else String.join ((utf8Bytes c.toNat).map fun b =>
    "%" ++ String.singleton (hexDigit (b / 16)) ++
      String.singleton (hexDigit (b % 16)))

/-- Percent-encoding applied to each key and value. -/
def formUrlEncode (s : String) : String :=
  String.join (s.toList.map formEncodeChar)

def encodePair (p : String × String) : String :=
  formUrlEncode p.1 ++ "=" ++ formUrlEncode p.2

/-- `HttpFormUrlEncodedContent::ReadAsStringAsync()` over the pairs in the
container's iteration order. -/
def buildQueryString (order : List (String × String)) : String :=
  String.intercalate "&" (order.map encodePair)

/-- Collapse consecutive equal elements to one representative. -/
def collapseRuns : List String → List String
  | [] => []
  | [k] => [k]
  | a :: b :: rest =>
    if a = b then collapseRuns (b :: rest)
    else a :: collapseRuns (b :: rest)

/-- Elements with equal keys occupy one contiguous run. -/
def keysContiguous (l : List (String × String)) : Prop :=
  (collapseRuns (l.map Prod.fst)).Nodup

/-- The iteration orders a standard-conforming `std::unordered_multimap` may
present for the pairs inserted (in insertion order) as `inserted`: a
permutation of them with equivalent keys adjacent ([unord.req]). -/
def validIterOrder (inserted order : List (String × String)) : Prop :=
  order.Perm inserted ∧ keysContiguous order

/-! ### The three public operations -/

inductive StoreError where
  | contractViolation
  | decodeError
deriving Repr, DecidableEq

/-- A request as handed to `call`: relative path plus the key/value pairs in
the order they were inserted into the `UrlParams` multimap. -/
structure UrlRequest where
  relativePath : String
  params : List (String × String)
deriving Repr, DecidableEq

/-- The request-building half of `WinMockContext::GetProducts`
(WinMockContext.cpp:42-60): the `assert`s on empty inputs (modelled as a
contract-violation error) precede the parameter construction and the network
call; `kinds` entries are inserted first, then `ids` entries. -/
def getProductsRequest (kinds ids : List String) :
    Except StoreError UrlRequest :=
  if kinds = [] then .error .contractViolation
  else if ids = [] then .error .contractViolation
  else .ok { relativePath := "/products",
             params := kinds.map (fun k => ("kinds", k)) ++
               ids.map (fun i => ("ids", i)) }

/-- The per-element decode loop of `GetProducts` (WinMockContext.cpp:64-69):
`product.GetObject()` then `fromJson`; a throw from either aborts the whole
loop. -/
def decodeProductList : List JsonValue → Option (List Product)
  | [] => some []
  | v :: rest => do
    let p ← getObject v
    let prod ← fromJson p
    let rest' ← decodeProductList rest
    pure (prod :: rest')

/-- Decoding of the `/products` response body
(WinMockContext.cpp:60-71): `GetNamedArray(L"products")` then the decode
loop. -/
def decodeProductsResponse (resp : JsonValue) : Option (List Product) := do
  let products ← getNamedArray resp "products"
  decodeProductList products

/-- `WinMockContext::GetProducts`, with the mock server's JSON reply passed
in as `resp`.  An exception anywhere (assert, or a decode throw) fails the
whole operation. -/
def GetProducts (kinds ids : List String) (resp : JsonValue) :
    Except StoreError (List Product) :=
  match getProductsRequest kinds ids with
  | .error e => .error e
  | .ok _ =>
    match decodeProductsResponse resp with
    | some ps => .ok ps
    | none => .error .decodeError

/-- The request-building half of `WinMockContext::GenerateUserJwt`
(WinMockContext.cpp:87-99): asserts a non-empty token, always inserts
`serviceticket`, and inserts `publisheruserid` only for a non-empty
`userId`; the path has no leading slash. -/
def generateUserJwtRequest (token userId : String) :
    Except StoreError UrlRequest :=
  if token = "" then .error .contractViolation
  else .ok { relativePath := "generateuserjwt",
             params := ("serviceticket", token) ::
               (if userId = "" then [] else [("publisheruserid", userId)]) }

/-- `WinMockContext::GenerateUserJwt`, with the mock's JSON reply passed in
as `resp`; `GetNamedString(L"jwt")` throws (decode error) when the field is
missing or mistyped. -/
def GenerateUserJwt (token userId : String) (resp : JsonValue) :
    Except StoreError String :=
  match generateUserJwtRequest token userId with
  | .error e => .error e
  | .ok _ =>
    match getNamedString resp "jwt" with
    | some s => .ok s
    | none => .error .decodeError

instance (l : List (String × String)) : Decidable (keysContiguous l) := by
  unfold keysContiguous
  infer_instance

instance (inserted order : List (String × String)) :
    Decidable (validIterOrder inserted order) := by
  unfold validIterOrder
  exact instDecidableAnd

/-! ### Helper lemmas -/

theorem resolve_some_fits (v junk : String) (h1 : v.length ≠ 0)
    (h2 : v.length ≤ 19) :
    resolveEndpointValue (some v) junk = "http://" ++ v := by
  have hfit : getEnvironmentVariableW (some v) 20 junk = (v.length, v) := by
    show (if v.length + 1 ≤ 20 then ((v.length : Nat), v)
      else (v.length + 1, junk)) = (v.length, v)
    rw [if_pos (by omega)]
  simp [resolveEndpointValue, readStoreMockEndpoint, hfit, h1]

theorem resolve_some_oversized (v junk : String) (h : 20 ≤ v.length) :
    resolveEndpointValue (some v) junk = "http://" ++ junk := by
  have hover : getEnvironmentVariableW (some v) 20 junk =
      (v.length + 1, junk) := by
    show (if v.length + 1 ≤ 20 then ((v.length : Nat), v)
      else (v.length + 1, junk)) = (v.length + 1, junk)
    rw [if_neg (by omega)]
  simp [resolveEndpointValue, readStoreMockEndpoint, hover]

theorem length_filter_kinds (kinds ids : List String) :
    ((kinds.map (fun k => ("kinds", k)) ++ ids.map (fun i => ("ids", i))).filter
      (fun p : String × String => p.1 == "kinds")).length = kinds.length := by
  induction kinds with
  | nil =>
    induction ids with
    | nil => rfl
    | cons i is ih =>
      simp only [List.map_cons, List.nil_append] at ih ⊢
      simp [ih]
  | cons k ks ih => simpa using ih

theorem length_filter_ids (kinds ids : List String) :
    ((kinds.map (fun k => ("kinds", k)) ++ ids.map (fun i => ("ids", i))).filter
      (fun p : String × String => p.1 == "ids")).length = ids.length := by
  induction kinds with
  | nil =>
    induction ids with
    | nil => rfl
    | cons i is ih => simpa using ih
  | cons k ks ih => simpa using ih

theorem decodeProductList_append_none (pre post : List JsonValue)
    (x : JsonValue) (hx : (getObject x).bind fromJson = none) :
    decodeProductList (pre ++ x :: post) = none := by
  induction pre with
  | nil =>
    cases hgo : getObject x with
    | none => simp [decodeProductList, hgo]
    | some p =>
      have hfp : fromJson p = none := by
        rw [hgo] at hx
        exact hx
      simp [decodeProductList, hgo, hfp]
  | cons a pre ih =>
    cases hga : getObject a with
    | none => simp [decodeProductList, hga]
    | some p =>
      cases hfp : fromJson p with
      | none => simp [decodeProductList, hga, hfp]
      | some prod => simp [decodeProductList, hga, hfp, ih]

/-! ### Claim theorems -/

/-- C1: the spec claims `GetProducts` with `kinds=["game"]`,
`ids=["9NBLGGH4R315"]` against a reply whose one product has
`ExpirationDate = "2025-01-01T00:00:00Z"` yields a Product whose expiration
is the UTC instant 2025-01-01T00:00:00.  The source's chrono format string
`"%FT%T%Tz"` contains a duplicated `%T` (and a lowercase literal `z`), so
after `%F`, the literal `T` and the first `%T` consume
`2025-01-01T00:00:00`, the second `%T` then fails on `Z`, the stream's
failbit is set, and the value-initialized time point (the epoch) is kept:
the code returns the epoch, not the claimed instant. -/
theorem c1_wellformed_timestamp_decodes_to_epoch :
    GetProducts ["game"] ["9NBLGGH4R315"]
      (.obj [("products", .arr [.obj [
        ("StoreID", .str "9NBLGGH4R315"),
        ("Title", .str "Mock product"),
        ("Description", .str "A mock"),
        ("ProductKind", .str "game"),
        ("ExpirationDate", .str "2025-01-01T00:00:00Z"),
        ("IsInUserCollection", .boolean true)]])]) =
      .ok [{ storeID := "9NBLGGH4R315", title := "Mock product",
             description := "A mock", productKind := "game",
             expiration := 0, isInUserCollection := true }] ∧
    chronoParseTimePoint expirationFormat "2025-01-01T00:00:00Z" = none ∧
    utcTicks 2025 1 1 0 0 0 = 17356896000000000 ∧
    (0 : Int) ≠ utcTicks 2025 1 1 0 0 0 := by
  refine ⟨rfl, rfl, rfl, by decide⟩

/-- C2 counterexample: the claim says every malformed or oversized value of
`UP4W_MS_STORE_MOCK_ENDPOINT` makes resolution fall back to the default
`http://127.0.0.1:9`.  In the code the default is used only when
`GetEnvironmentVariableW` returns 0: a malformed value that fits the
20-wide-char buffer is used verbatim, and an oversized value (20 or more
characters) leaves the buffer's undefined contents (modelled by the junk
string `"GARBAGE"`) as the endpoint. -/
theorem c2_counterexample :
    resolveEndpointValue (some "not-an-endpoint!") "junk" =
      "http://not-an-endpoint!" ∧
    resolveEndpointValue (some "not-an-endpoint!") "junk" ≠
      "http://127.0.0.1:9" ∧
    resolveEndpointValue (some "aaaaaaaaaaaaaaaaaaaa") "GARBAGE" =
      "http://GARBAGE" ∧
    resolveEndpointValue (some "aaaaaaaaaaaaaaaaaaaa") "GARBAGE" ≠
      "http://127.0.0.1:9" := by
  refine ⟨rfl, by decide, rfl, by decide⟩

/-- C2 amended: endpoint resolution never fails the caller (it always
returns a string), but the fallback to `http://127.0.0.1:9` happens only
when the variable is unset or empty; a value that fits the 20-wide-char
buffer is used verbatim with no validation, and an oversized value yields
the buffer's undefined contents prefixed with `http://`. -/
theorem c2_amended (v junk : String) :
    resolveEndpointValue none junk = "http://127.0.0.1:9" ∧
    resolveEndpointValue (some "") junk = "http://127.0.0.1:9" ∧
    (1 ≤ v.length → v.length ≤ 19 →
      resolveEndpointValue (some v) junk = "http://" ++ v) ∧
    (20 ≤ v.length →
      resolveEndpointValue (some v) junk = "http://" ++ junk) := by
  refine ⟨rfl, rfl, ?_, ?_⟩
  · intro h1 h2
    exact resolve_some_fits v junk (by omega) h2
  · intro h
    exact resolve_some_oversized v junk h

/-- C2 amended, witness: the amended statement applied at the malformed
16-character value and at a 20-character value. -/
theorem c2_amended_witness :
    resolveEndpointValue (some "not-an-endpoint!") "junk" =
      "http://" ++ "not-an-endpoint!" ∧
    resolveEndpointValue (some "aaaaaaaaaaaaaaaaaaaa") "GARBAGE" =
      "http://" ++ "GARBAGE" :=
  ⟨(c2_amended "not-an-endpoint!" "junk").2.2.1 (by decide) (by decide),
   (c2_amended "aaaaaaaaaaaaaaaaaaaa" "GARBAGE").2.2.2 (by decide)⟩

/-- C10 counterexample: the claim quantifies over every environment value
short enough to fit the 20-wide-char buffer, i.e. of at most 19 characters.
The empty value fits, but `GetEnvironmentVariableW` stores zero characters
for it and returns 0 — indistinguishable from an unset variable — so the
code falls back to the default instead of returning the literal
concatenation `"http://" ++ ""`. -/
theorem c10_counterexample :
    resolveEndpointValue (some "") "junk" = "http://127.0.0.1:9" ∧
    resolveEndpointValue (some "") "junk" ≠ "http://" ++ "" := by
  refine ⟨rfl, by decide⟩

/-- C10 amended: for every non-empty environment value of at most 19
characters, the resolved endpoint is the literal concatenation `"http://"`
++ value, with no validation or normalization — so a value that already
carries a scheme yields a double-scheme endpoint (see the witness). -/
theorem c10_amended (v junk : String) (h1 : 1 ≤ v.length)
    (h2 : v.length ≤ 19) :
    resolveEndpointValue (some v) junk = "http://" ++ v :=
  resolve_some_fits v junk (by omega) h2

/-- C10 amended, witness: the 13-character value `"http://host:1"` resolves
to the double-scheme endpoint `"http://http://host:1"`. -/
theorem c10_amended_witness :
    resolveEndpointValue (some "http://host:1") "junk" =
      "http://" ++ "http://host:1" :=
  c10_amended "http://host:1" "junk" (by decide) (by decide)

/-- C4: with the variable unset the endpoint resolves to
`http://127.0.0.1:9`; set to `"203.0.113.5:8080"` it resolves to
`http://203.0.113.5:8080`; and — modelling the C++ `static` local's
initialize-once semantics — the second and every later resolution returns
the value cached by the first one, whatever the environment holds by then. -/
theorem c4_endpoint_default_override_memoized :
    (∀ junk, (buildUriEndpointStep none junk none).1 = "http://127.0.0.1:9") ∧
    (∀ junk, (buildUriEndpointStep (some "203.0.113.5:8080") junk none).1 =
      "http://203.0.113.5:8080") ∧
    (∀ env1 junk1 env2 junk2,
      (buildUriEndpointStep env2 junk2
        (buildUriEndpointStep env1 junk1 none).2).1 =
      (buildUriEndpointStep env1 junk1 none).1) ∧
    (∀ env junk e, buildUriEndpointStep env junk (some e) = (e, some e)) := by
  exact ⟨fun _ => rfl, fun _ => rfl, fun _ _ _ _ => rfl, fun _ _ _ => rfl⟩

/-- C3 counterexample: the claim says the serialized query string always
lists the pairs in insertion order.  The pairs live in a
`std::unordered_multimap`, whose iteration order is unspecified: for the
insertion order produced by `GetProducts(["game"], ["9NBLGGH4R315"])`, the
order with the `ids` pair first is equally standard-conforming (a
permutation with equal keys adjacent), and it serializes differently. -/
theorem c3_counterexample :
    getProductsRequest ["game"] ["9NBLGGH4R315"] =
      .ok { relativePath := "/products",
            params := [("kinds", "game"), ("ids", "9NBLGGH4R315")] } ∧
    validIterOrder [("kinds", "game"), ("ids", "9NBLGGH4R315")]
      [("ids", "9NBLGGH4R315"), ("kinds", "game")] ∧
    buildQueryString [("ids", "9NBLGGH4R315"), ("kinds", "game")] =
      "ids=9NBLGGH4R315&kinds=game" ∧
    buildQueryString [("kinds", "game"), ("ids", "9NBLGGH4R315")] =
      "kinds=game&ids=9NBLGGH4R315" ∧
    ("ids=9NBLGGH4R315&kinds=game" : String) ≠
      "kinds=game&ids=9NBLGGH4R315" := by
  refine ⟨rfl, by decide, rfl, rfl, by decide⟩

/-- C3 amended: for every parameter set, the serialized query string is the
`&`-join of the percent-encoded `key=value` pairs in the container's
iteration order; that order presents each inserted pair exactly once (it is
a permutation of the insertions, so all per-key counts are preserved) and
keeps pairs with equal keys adjacent, but it need not be the insertion
order. -/
theorem c3_amended (inserted order : List (String × String))
    (h : validIterOrder inserted order) :
    (order.map encodePair).Perm (inserted.map encodePair) ∧
    (∀ k, (order.filter (fun p => p.1 == k)).length =
      (inserted.filter (fun p => p.1 == k)).length) ∧
    keysContiguous order ∧
    buildQueryString order = String.intercalate "&" (order.map encodePair) := by
  obtain ⟨hperm, hcont⟩ := h
  refine ⟨hperm.map _, fun k => ?_, hcont, rfl⟩
  rw [← List.countP_eq_length_filter, ← List.countP_eq_length_filter]
  exact hperm.countP_eq _

/-- C3 amended, witness: the amended statement at a concrete two-pair
insertion presented in reversed order. -/
theorem c3_amended_witness :
    (([("ids", "9NBLGGH4R315"), ("kinds", "game")].map encodePair).Perm
      ([("kinds", "game"), ("ids", "9NBLGGH4R315")].map encodePair)) ∧
    (∀ k, (([("ids", "9NBLGGH4R315"), ("kinds", "game")] :
        List (String × String)).filter (fun p => p.1 == k)).length =
      (([("kinds", "game"), ("ids", "9NBLGGH4R315")] :
        List (String × String)).filter (fun p => p.1 == k)).length) ∧
    keysContiguous [("ids", "9NBLGGH4R315"), ("kinds", "game")] ∧
    buildQueryString [("ids", "9NBLGGH4R315"), ("kinds", "game")] =
      String.intercalate "&"
        ([("ids", "9NBLGGH4R315"), ("kinds", "game")].map encodePair) :=
  c3_amended [("kinds", "game"), ("ids", "9NBLGGH4R315")]
    [("ids", "9NBLGGH4R315"), ("kinds", "game")] (by decide)

/-- C5: for all non-empty `kinds` and `ids`, the query string built by
`GetProducts` — in any iteration order the multimap may present — contains
exactly `kinds.length` pairs with key `kinds` and exactly `ids.length`
pairs with key `ids` (duplicate values included), each pair
percent-encoded and joined with `&`. -/
theorem c5_query_key_counts (kinds ids : List String) (h1 : kinds ≠ [])
    (h2 : ids ≠ []) (req : UrlRequest)
    (hreq : getProductsRequest kinds ids = .ok req)
    (order : List (String × String))
    (hord : validIterOrder req.params order) :
    (order.filter (fun p => p.1 == "kinds")).length = kinds.length ∧
    (order.filter (fun p => p.1 == "ids")).length = ids.length ∧
    buildQueryString order = String.intercalate "&" (order.map encodePair) := by
  have hp : req.params =
      kinds.map (fun k => ("kinds", k)) ++ ids.map (fun i => ("ids", i)) := by
    unfold getProductsRequest at hreq
    rw [if_neg h1, if_neg h2] at hreq
    rw [← Except.ok.inj hreq]
  obtain ⟨hperm, _⟩ := hord
  refine ⟨?_, ?_, rfl⟩
  · rw [← List.countP_eq_length_filter, hperm.countP_eq, hp,
      List.countP_eq_length_filter]
    exact length_filter_kinds kinds ids
  · rw [← List.countP_eq_length_filter, hperm.countP_eq, hp,
      List.countP_eq_length_filter]
    exact length_filter_ids kinds ids

/-- C5 witness: `kinds = ["game", "game"]` (a duplicate value) and
`ids = ["9NBLGGH4R315"]`, with the iteration order equal to the insertion
order. -/
theorem c5_query_key_counts_witness :
    (([("kinds", "game"), ("kinds", "game"), ("ids", "9NBLGGH4R315")] :
        List (String × String)).filter
      (fun p => p.1 == "kinds")).length =
        (["game", "game"] : List String).length ∧
    (([("kinds", "game"), ("kinds", "game"), ("ids", "9NBLGGH4R315")] :
        List (String × String)).filter
      (fun p => p.1 == "ids")).length =
        (["9NBLGGH4R315"] : List String).length ∧
    buildQueryString
        [("kinds", "game"), ("kinds", "game"), ("ids", "9NBLGGH4R315")] =
      String.intercalate "&"
        ([("kinds", "game"), ("kinds", "game"),
          ("ids", "9NBLGGH4R315")].map encodePair) :=
  c5_query_key_counts ["game", "game"] ["9NBLGGH4R315"] (by decide) (by decide)
    { relativePath := "/products",
      params := [("kinds", "game"), ("kinds", "game"),
                 ("ids", "9NBLGGH4R315")] }
    rfl
    [("kinds", "game"), ("kinds", "game"), ("ids", "9NBLGGH4R315")]
    ⟨List.Perm.refl _, by decide⟩

/-- C6: `GetProducts` with empty `kinds` or empty `ids`, and
`GenerateUserJwt` with an empty token, fail with the contract violation
raised by the `assert`s at the top of each function — before the parameter
set or URI is built and independently of whatever the network would have
answered (`resp` is universally quantified). -/
theorem c6_contract_violations (kinds ids : List String)
    (token userId : String) (resp resp2 : JsonValue)
    (h : kinds = [] ∨ ids = []) (ht : token = "") :
    getProductsRequest kinds ids = .error .contractViolation ∧
    GetProducts kinds ids resp = .error .contractViolation ∧
    generateUserJwtRequest token userId = .error .contractViolation ∧
    GenerateUserJwt token userId resp2 = .error .contractViolation := by
  have hreq : getProductsRequest kinds ids = .error .contractViolation := by
    rcases h with h | h
    · unfold getProductsRequest
      rw [if_pos h]
    · unfold getProductsRequest
      by_cases hk : kinds = []
      · rw [if_pos hk]
      · rw [if_neg hk, if_pos h]
  have hjwt : generateUserJwtRequest token userId =
      .error .contractViolation := by
    unfold generateUserJwtRequest
    rw [if_pos ht]
  refine ⟨hreq, ?_, hjwt, ?_⟩
  · unfold GetProducts
    rw [hreq]
  · unfold GenerateUserJwt
    rw [hjwt]

/-- C6 witness: empty `kinds` and an empty token, against an arbitrary
response. -/
theorem c6_contract_violations_witness :
    getProductsRequest [] ["9NBLGGH4R315"] = .error .contractViolation ∧
    GetProducts [] ["9NBLGGH4R315"] .null = .error .contractViolation ∧
    generateUserJwtRequest "" "u1" = .error .contractViolation ∧
    GenerateUserJwt "" "u1" .null = .error .contractViolation :=
  c6_contract_violations [] ["9NBLGGH4R315"] "" "u1" .null .null
    (Or.inl rfl) rfl

/-- C7: for every non-empty token, the parameter set built by
`GenerateUserJwt` contains `serviceticket=token`; it contains no
`publisheruserid` pair when `userId` is empty, and contains
`publisheruserid=userId` when `userId` is non-empty. -/
theorem c7_jwt_params (token userId : String) (h : token ≠ "") :
    ∃ req, generateUserJwtRequest token userId = .ok req ∧
      ("serviceticket", token) ∈ req.params ∧
      (userId = "" → ∀ v, ("publisheruserid", v) ∉ req.params) ∧
      (userId ≠ "" → ("publisheruserid", userId) ∈ req.params) := by
  by_cases hu : userId = ""
  · subst hu
    refine ⟨{ relativePath := "generateuserjwt",
              params := [("serviceticket", token)] }, ?_, ?_, ?_, ?_⟩
    · unfold generateUserJwtRequest
      rw [if_neg h, if_pos rfl]
    · simp
    · intro _ v hv
      simp [Prod.ext_iff] at hv
    · intro hne
      exact absurd rfl hne
  · refine ⟨{ relativePath := "generateuserjwt",
              params := [("serviceticket", token),
                         ("publisheruserid", userId)] }, ?_, ?_, ?_, ?_⟩
    · unfold generateUserJwtRequest
      rw [if_neg h, if_neg hu]
    · simp
    · intro h'
      exact absurd h' hu
    · intro _
      simp

/-- C7 witness: the statement applied at `token = "abc"` with `userId = ""`
and with `userId = "u1"`. -/
theorem c7_jwt_params_witness :
    (∃ req, generateUserJwtRequest "abc" "" = .ok req ∧
      ("serviceticket", "abc") ∈ req.params ∧
      ("" = "" → ∀ v, ("publisheruserid", v) ∉ req.params) ∧
      (("" : String) ≠ "" → ("publisheruserid", "") ∈ req.params)) ∧
    (∃ req, generateUserJwtRequest "abc" "u1" = .ok req ∧
      ("serviceticket", "abc") ∈ req.params ∧
      ("u1" = "" → ∀ v, ("publisheruserid", v) ∉ req.params) ∧
      (("u1" : String) ≠ "" → ("publisheruserid", "u1") ∈ req.params)) :=
  ⟨c7_jwt_params "abc" "" (by decide), c7_jwt_params "abc" "u1" (by decide)⟩

/-- C8: a product object whose `ExpirationDate` holds a string the chrono
parse rejects, but whose other fields are well-formed, decodes to a Product
with the epoch expiration and all other fields taken verbatim; the decode
of the record — and of a whole response containing it — succeeds. -/
theorem c8_malformed_timestamp_degrades (flds : List (String × JsonValue))
    (s sid t d k : String) (b : Bool)
    (hexp : getNamedString (.obj flds) "ExpirationDate" = some s)
    (hbad : chronoParseTimePoint expirationFormat s = none)
    (hsid : getNamedString (.obj flds) "StoreID" = some sid)
    (ht : getNamedString (.obj flds) "Title" = some t)
    (hd : getNamedString (.obj flds) "Description" = some d)
    (hk : getNamedString (.obj flds) "ProductKind" = some k)
    (hb : getNamedBoolean (.obj flds) "IsInUserCollection" = some b) :
    fromJson (.obj flds) =
      some { storeID := sid, title := t, description := d, productKind := k,
             expiration := 0, isInUserCollection := b } ∧
    GetProducts ["game"] ["9NBLGGH4R315"]
        (.obj [("products", .arr [.obj flds])]) =
      .ok [{ storeID := sid, title := t, description := d, productKind := k,
             expiration := 0, isInUserCollection := b }] := by
  have hfj : fromJson (.obj flds) =
      some { storeID := sid, title := t, description := d, productKind := k,
             expiration := 0, isInUserCollection := b } := by
    simp [fromJson, hexp, hbad, hsid, ht, hd, hk, hb]
  refine ⟨hfj, ?_⟩
  simp [GetProducts, getProductsRequest, decodeProductsResponse,
    getNamedArray, lookupField, decodeProductList, getObject, hfj]

/-- C8 witness: the malformed timestamp `"not-a-date"` with otherwise
well-formed fields. -/
theorem c8_malformed_timestamp_degrades_witness :
    fromJson (.obj [("ExpirationDate", .str "not-a-date"),
      ("StoreID", .str "9NBLGGH4R315"), ("Title", .str "Mock product"),
      ("Description", .str "A mock"), ("ProductKind", .str "game"),
      ("IsInUserCollection", .boolean false)]) =
      some { storeID := "9NBLGGH4R315", title := "Mock product",
             description := "A mock", productKind := "game",
             expiration := 0, isInUserCollection := false } ∧
    GetProducts ["game"] ["9NBLGGH4R315"]
        (.obj [("products", .arr [.obj [("ExpirationDate", .str "not-a-date"),
          ("StoreID", .str "9NBLGGH4R315"), ("Title", .str "Mock product"),
          ("Description", .str "A mock"), ("ProductKind", .str "game"),
          ("IsInUserCollection", .boolean false)]])]) =
      .ok [{ storeID := "9NBLGGH4R315", title := "Mock product",
             description := "A mock", productKind := "game",
             expiration := 0, isInUserCollection := false }] :=
  c8_malformed_timestamp_degrades
    [("ExpirationDate", .str "not-a-date"),
     ("StoreID", .str "9NBLGGH4R315"), ("Title", .str "Mock product"),
     ("Description", .str "A mock"), ("ProductKind", .str "game"),
     ("IsInUserCollection", .boolean false)]
    "not-a-date" "9NBLGGH4R315" "Mock product" "A mock" "game" false
    rfl rfl rfl rfl rfl rfl rfl

/-- C9: the leniency stops at the format of the value: when
`ExpirationDate` is absent (or not a JSON string) the `GetNamedString`
throw makes the decode of that product fail, and the whole `GetProducts`
operation fails — wherever that product sits in the `products` array. -/
theorem c9_missing_expiration_aborts (flds : List (String × JsonValue))
    (hmiss : getNamedString (.obj flds) "ExpirationDate" = none)
    (kinds ids : List String) (pre post : List JsonValue)
    (h1 : kinds ≠ []) (h2 : ids ≠ []) :
    fromJson (.obj flds) = none ∧
    GetProducts kinds ids
        (.obj [("products", .arr (pre ++ .obj flds :: post))]) =
      .error .decodeError := by
  have hfj : fromJson (.obj flds) = none := by
    simp [fromJson, hmiss]
  refine ⟨hfj, ?_⟩
  have hlist : decodeProductList (pre ++ JsonValue.obj flds :: post) = none :=
    decodeProductList_append_none pre post _ (by simp [getObject, hfj])
  unfold GetProducts getProductsRequest
  rw [if_neg h1, if_neg h2]
  simp [decodeProductsResponse, getNamedArray, lookupField, hlist]

/-- C9 witness: a product object with every field except `ExpirationDate`. -/
theorem c9_missing_expiration_aborts_witness :
    fromJson (.obj [("StoreID", .str "9NBLGGH4R315"),
      ("Title", .str "Mock product"), ("Description", .str "A mock"),
      ("ProductKind", .str "game"),
      ("IsInUserCollection", .boolean true)]) = none ∧
    GetProducts ["game"] ["9NBLGGH4R315"]
        (.obj [("products", .arr [.obj [("StoreID", .str "9NBLGGH4R315"),
          ("Title", .str "Mock product"), ("Description", .str "A mock"),
          ("ProductKind", .str "game"),
          ("IsInUserCollection", .boolean true)]])]) =
      .error .decodeError :=
  c9_missing_expiration_aborts
    [("StoreID", .str "9NBLGGH4R315"), ("Title", .str "Mock product"),
     ("Description", .str "A mock"), ("ProductKind", .str "game"),
     ("IsInUserCollection", .boolean true)]
    rfl ["game"] ["9NBLGGH4R315"] [] [] (by decide) (by decide)

end StoreApi
